import Mathlib

/-!
Shallow embedding of the Windmark Gemini server core: the request handling
and response framing of src/src/router.rs, the status assignment of
src/src/response.rs and src/src/status.rs, and the path utilities of
src/src/utilities.rs.  Stateful wire interaction is modelled as a pure
function from a parsed request outcome to the bytes written on the stream
together with the ordered trace of hook invocations.
-/

namespace Windmark

/-- Characterwise view of string append, used to reason about wire output. -/
theorem data_append (s t : String) : (s ++ t).data = s.data ++ t.data := rfl

/-- The empty string has no characters. -/
theorem data_empty : ("" : String).data = [] := rfl

/-- Two strings with the same character data are equal. -/
theorem strEq {s t : String} (h : s.data = t.data) : s = t := by
  cases s
  cases t
  cases h
  rfl

/-- Modelled from the spec: the `Response` value consumed by `Router::handle`
in src/src/router.rs (fields `status`, `content`, `mime`, `character_set`,
`languages`) is defined in a file of this repository that is not present
under src/ (src/src/response.rs holds an older enum snapshot).  The field
shape follows spec section 3 "ResponseModel" and the field accesses in
src/src/router.rs lines 463-501. -/
structure Response where
  status : Int
  content : String
  mime : Option String
  character_set : Option String
  languages : Option (List String)

/-- Modelled from the spec: the `success` constructor (status 20, no explicit
MIME, charset or languages).  The status number is corroborated by
`Response::Success` in `to_value_set_status` (src/src/response.rs) and
`Code::Success` in src/src/status.rs. -/
def Response.success (content : String) : Response :=
  ⟨20, content, none, none, none⟩

/-- Modelled from the spec: the `binary_success` constructor (internal status
21, caller-supplied MIME); body bytes are carried as the characters of
`content`.  The status number is corroborated by `Response::SuccessFile` in
`to_value_set_status` (src/src/response.rs), which sets status 21 and the
caller MIME. -/
def Response.binary_success (content : String) (mime : String) : Response :=
  ⟨21, content, some mime, none, none⟩

/-- Modelled from the spec: the `not_found` constructor (status 51), used by
the default error handler in `Router::default` (src/src/router.rs).  The
status number is corroborated by `Response::NotFound` in
`to_value_set_status` (src/src/response.rs) and `Code::NotFound` in
src/src/status.rs. -/
def Response.not_found (content : String) : Response :=
  ⟨51, content, none, none, none⟩

/-- Modelled from the spec: the `input` constructor (status 10), corroborated
by `Response::Input` in `to_value_set_status` (src/src/response.rs). -/
def Response.input (content : String) : Response :=
  ⟨10, content, none, none, none⟩

/-- Per-request context passed to route handlers (src/src/context/route.rs):
optional peer address, the request URL (modelled by its path), the captured
path parameters, and the optional peer certificate (both peer data modelled
opaquely as strings). -/
structure RouteContext where
  peer_address : Option String
  url : String
  params : List (String × String)
  certificate : Option String

/-- Modelled from the spec: the owned `ErrorContext` built in
`Router::handle` from the peer address, the URL and the peer certificate
(src/src/context/error.rs under src/ is an older borrowed-stream snapshot
that does not match the call in src/src/router.rs lines 439-447). -/
structure ErrorContext where
  peer_address : Option String
  url : String
  certificate : Option String

/-- Context passed to module hooks and callbacks (src/src/context/hook.rs):
peer address, URL, the matched parameters when a route matched, and the
optional peer certificate. -/
structure HookContext where
  peer_address : Option String
  url : String
  parameters : Option (List (String × String))
  certificate : Option String

/-- One observable hook invocation or write performed by `Router::handle`,
indexed by the position of the module or of the header/footer function in
its registration list. -/
inductive Event where
  | preModuleAsync (i : Nat)
  | preModuleSync (i : Nat)
  | preCallback
  | headerFn (i : Nat)
  | footerFn (i : Nat)
  | handler
  | errorHandler
  | postModuleAsync (i : Nat)
  | postModuleSync (i : Nat)
  | postCallback
  | wireWrite
deriving DecidableEq

/-- Modelled from the spec: the matching tree of the `matchit` crate used as
`Router::routes` (the crate is an external dependency, not under src/).
Spec section 4.1: a prefix tree on literal segments where each node may
additionally hold one parameter child; the root corresponds to the empty
prefix. -/
inductive RTree (α : Type) : Type where
  | node (handler : Option α) (literal : List (String × RTree α))
      (param : Option (String × RTree α))

/-- The empty matching tree. -/
def RTree.empty {α : Type} : RTree α := .node none [] none

/-- Replace or add the binding of `k` in an association list of children. -/
def setAssoc {α : Type} (k : String) (v : RTree α) :
    List (String × RTree α) → List (String × RTree α)
  | [] => [(k, v)]
  | (k2, v2) :: rest =>
      if k = k2 then (k, v) :: rest else (k2, v2) :: setAssoc k v rest

/-- Modelled from the spec: insertion into the matching tree (spec section
4.1 `insert`): descend segment by segment; a segment beginning with `:`
binds the parameter child; duplicate patterns and conflicting parameter
names at the same position are rejected. -/
def insertAux {α : Type} (t : RTree α) (segs : List String) (h : α) :
    Option (RTree α) :=
  match t, segs with
  | .node hd lits par, [] =>
      match hd with
      | some _ => none
      | none => some (.node (some h) lits par)
  | .node hd lits par, s :: rest =>
      match s.data with
      | ':' :: nameChars =>
          let pname : String := ⟨nameChars⟩
          match par with
          | some (name, sub) =>
              if name = pname then
                (insertAux sub rest h).map fun sub2 =>
                  .node hd lits (some (name, sub2))
              else none
          | none =>
              (insertAux RTree.empty rest h).map fun sub2 =>
                .node hd lits (some (pname, sub2))
      | _ =>
          let child := (lits.lookup s).getD RTree.empty
          (insertAux child rest h).map fun sub2 =>
            .node hd (setAssoc s sub2 lits) par

/-- Modelled from the spec: lookup in the matching tree (spec section 4.1
`at`): on descent, if the literal child matches, take it; else if a
parameter child exists, capture the segment and continue; the matcher never
backtracks. -/
def atAux {α : Type} (t : RTree α) (segs : List String)
    (ps : List (String × String)) : Option (α × List (String × String)) :=
  match t, segs with
  | .node hd _ _, [] => hd.map fun h => (h, ps)
  | .node _ lits par, s :: rest =>
      match lits.lookup s with
      | some sub => atAux sub rest ps
      | none =>
          match par with
          | some (name, sub) => atAux sub rest (ps ++ [(name, s)])
          | none => none

/-- Split character data on `'/'`, keeping empty segments, as `'/'`-delimited
patterns and paths are segmented (so a trailing slash yields a final empty
segment and `"/About/"` is distinct from `"/About"`). -/
def splitOnSlash : List Char → List (List Char)
  | [] => [[]]
  | c :: rest =>
      let r := splitOnSlash rest
      if c = '/' then [] :: r
      else
        match r with
        | [] => [[c]]
        | s :: ss => (c :: s) :: ss

/-- The segments of a path: everything after the leading `/` (the root node
corresponds to the empty prefix, spec section 4.1). -/
def pathSegments (p : String) : List String :=
  ((splitOnSlash p.data).map fun l => (⟨l⟩ : String)).drop 1

/-- Insert a pattern into the matching tree. -/
def rtInsert {α : Type} (t : RTree α) (pattern : String) (h : α) :
    Option (RTree α) :=
  insertAux t (pathSegments pattern) h

/-- Modelled from the spec: full-path lookup; spec section 4.1 edge case
"empty path is normalized to `/` before lookup". -/
def rtAt {α : Type} (t : RTree α) (p : String) :
    Option (α × List (String × String)) :=
  atAux t (pathSegments (if p = "" then "/" else p)) []

/-- Whether a string ends with `'/'` (the `ends_with('/')` test of
src/src/utilities.rs). -/
def endsWithSlash (s : String) : Bool :=
  match s.data.getLast? with
  | some c => c = '/'
  | none => false

/-- Remove every trailing `'/'` character (the `trim_end_matches('/')` call
of src/src/utilities.rs). -/
def stripTrailingSlashes (s : String) : String :=
  ⟨(s.data.reverse.dropWhile fun c => c = '/').reverse⟩

/-- `normalize_path_slashes` from src/src/utilities.rs: the root path `"/"`
is returned unchanged; a path ending in `'/'` has all trailing slashes
removed; any other path is returned unchanged. -/
def normalize_path_slashes (path : String) : String :=
  if path = "/" then "/"
  else if endsWithSlash path then stripTrailingSlashes path
  else path

/-- Case-folding key of a character: upper-case ASCII letters are compared as
their lower-case counterparts. -/
def charKey (c : Char) : Nat :=
  if 'A' ≤ c ∧ c ≤ 'Z' then c.toNat + 32 else c.toNat

/-- Relaxed comparison key of a path: trailing slashes dropped (except for
the root) and ASCII case ignored. -/
def relaxedKey (p : String) : List Nat :=
  (normalize_path_slashes p).data.map charKey

/-- Modelled from the spec: `fix_path` of the external `matchit` crate (spec
section 4.1 `fixPath`): a case-insensitive and trailing-slash-tolerant
lookup that returns the canonical registered pattern path if a match exists
under the relaxed rules. -/
def fixPath (patterns : List String) (p : String) : Option String :=
  patterns.find? fun pat => relaxedKey pat = relaxedKey p

/-- A route handler: a function from the request context to a response. -/
abbrev Handler := RouteContext → Response

/-- The router state relevant to request handling (src/src/router.rs,
`struct Router` and `impl Default for Router`).  Modules carry no data that
the modelled claims observe, so only their counts are kept; `patterns`
records the mounted pattern paths for the relaxed `fix_path` lookup. -/
structure Router where
  routes : RTree Handler
  patterns : List String
  error_handler : ErrorContext → Response
  headers : List (RouteContext → String)
  footers : List (RouteContext → String)
  post_route_callback : HookContext → Response → Response
  character_set : String
  languages : List String
  async_modules : Nat
  modules : Nat
  fix_path : Bool

/-- The default router (src/src/router.rs, `impl Default for Router`): no
routes, the stock error handler, no headers or footers, identity post-route
callback, charset `"utf-8"`, languages `["en"]`, `fix_path` off. -/
def Router.default : Router where
  routes := RTree.empty
  patterns := []
  error_handler := fun _ =>
    Response.not_found "This capsule has not implemented an error handler..."
  headers := []
  footers := []
  post_route_callback := fun _ c => c
  character_set := "utf-8"
  languages := ["en"]
  async_modules := 0
  modules := 0
  fix_path := false

/-- `Router::mount` (src/src/router.rs): insert the pattern into the
matching tree (the Rust code unwraps; the claims only exercise successful
insertions, on failure the tree is left unchanged here) and record the
pattern path. -/
def Router.mount (r : Router) (pattern : String) (h : Handler) : Router :=
  { r with
    routes := (rtInsert r.routes pattern h).getD r.routes
    patterns := r.patterns ++ [pattern] }

/-- The header loop of `Router::handle` (src/src/router.rs lines 412-417):
each header function's output followed by a newline is appended, and one
`headerFn` event is recorded per function. -/
def headerFoldAux (ctx : RouteContext) (i : Nat) :
    List (RouteContext → String) → String × List Event
  | [] => ("", [])
  | f :: rest =>
      let r := headerFoldAux ctx (i + 1) rest
      ((f ctx ++ "\n") ++ r.1, Event.headerFn i :: r.2)

/-- Composite header string and events for a list of header functions. -/
def headerFold (hs : List (RouteContext → String)) (ctx : RouteContext) :
    String × List Event :=
  headerFoldAux ctx 0 hs

/-- The footer loop of `Router::handle` (src/src/router.rs lines 419-432):
each footer function's output is appended, followed by a newline when
there is more than one footer and this is not the last one. -/
def footerFoldAux (ctx : RouteContext) (n : Nat) (i : Nat) :
    List (RouteContext → String) → String × List Event
  | [] => ("", [])
  | f :: rest =>
      let r := footerFoldAux ctx n (i + 1) rest
      ((f ctx ++ (if n > 1 ∧ i ≠ n - 1 then "\n" else "")) ++ r.1,
        Event.footerFn i :: r.2)

/-- Composite footer string and events for a list of footer functions. -/
def footerFold (fs : List (RouteContext → String)) (ctx : RouteContext) :
    String × List Event :=
  footerFoldAux ctx fs.length 0 fs

/-- The status line of the wire response (src/src/router.rs lines 465-492):
the status (the internal statuses 21, 22 and 23 are written as 20), the
META part of the line, and the terminating CRLF.  For status 20 the META is
a space, the MIME (default `text/gemini`), charset and languages; for
status 21 it is the caller MIME with no leading space; for status 22 (the
auto-deduce-mime build) a space and the sniffed MIME; otherwise a space and
the response content. -/
def wireHead (r : Router) (c : Response) : String :=
  toString (if c.status = 21 ∨ c.status = 22 ∨ c.status = 23 then (20 : Int)
    else c.status) ++
  (if c.status = 20 then
      " " ++ c.mime.getD "text/gemini" ++ "; charset=" ++
        c.character_set.getD r.character_set ++ "; lang=" ++
        joinComma (c.languages.getD r.languages)
    else if c.status = 21 then c.mime.getD ""
    else if c.status = 22 then " " ++ c.mime.getD ""
    else " " ++ c.content) ++
  "\r\n"
where
  /-- `Vec::join(",")` on the language list. -/
  joinComma : List String → String
    | [] => ""
    | [s] => s
    | s :: rest => s ++ "," ++ joinComma rest

/-- The body part of the wire response (src/src/router.rs lines 493-497):
for status 20 the composed header, the content, a newline and the composed
footer; for statuses 21 and 22 the raw content; otherwise nothing. -/
def wireBody (header footer : String) (c : Response) : String :=
  if c.status = 20 then header ++ c.content ++ "\n" ++ footer
  else if c.status = 21 ∨ c.status = 22 then c.content
  else ""

/-- The complete bytes written by the final `write_all` of `Router::handle`
(src/src/router.rs lines 463-501). -/
def wireResponse (r : Router) (header footer : String) (c : Response) :
    String :=
  wireHead r c ++ wireBody header footer c

/-- The reply written by the `or_error!` macro (src/src/router.rs lines
64-79) when the request bytes are not UTF-8 or do not parse as a URL. -/
def badRequestReply (e : String) : String :=
  "59 The server (Windmark) received a bad request: " ++ e

/-- The lookup path computation of `Router::handle` (src/src/router.rs lines
367-378): with `fix_path` set, the relaxed lookup of the path (an empty
path first replaced by `/`), falling back to the raw path; otherwise the
raw path. -/
def lookupPath (r : Router) (path : String) : String :=
  if r.fix_path then
    (fixPath r.patterns (if path = "" then "/" else path)).getD path
  else path

/-- Events for one module hook loop, one event per attached module in
insertion order. -/
def moduleEvents (f : Nat → Event) (n : Nat) : List Event :=
  (List.range n).foldl (fun a i => a ++ [f i]) []

/-- The outcome of reading and parsing the request line, the two `or_error!`
branches of `Router::handle` (UTF-8 decoding and URL parsing are performed
by external crates; the outcome is taken as input): invalid UTF-8 before
CRLF, URL parse failure, or a parsed URL (modelled by its path). -/
inductive RequestOutcome where
  | badUtf8 (e : String)
  | badUrl (e : String)
  | ok (path : String)

/-- `Router::handle` (src/src/router.rs lines 340-509) as a pure function
from the request outcome, peer address and peer certificate to the bytes
written on the stream and the ordered trace of hook invocations.  A
malformed request is answered by the `or_error!` reply and nothing else
runs.  Otherwise: the route is resolved; `on_pre_route` runs on every async
module then on every sync module, then the pre-route callback; on a match,
the header functions then the footer functions are evaluated and then the
handler; on a miss, the error handler is called with the error context; then
`on_post_route` runs on every async module then every sync module, then the
post-route callback (which may replace the response), and the wire response
is written. -/
def handle (r : Router) (req : RequestOutcome)
    (peer cert : Option String) : String × List Event :=
  match req with
  | .badUtf8 e => (badRequestReply e, [])
  | .badUrl e => (badRequestReply e, [])
  | .ok path =>
      let routeResult := rtAt r.routes (lookupPath r path)
      let hookCtx : HookContext :=
        ⟨peer, path, routeResult.map fun q => q.2, cert⟩
      let preEv :=
        moduleEvents Event.preModuleAsync r.async_modules ++
        moduleEvents Event.preModuleSync r.modules ++ [Event.preCallback]
      let postEv :=
        moduleEvents Event.postModuleAsync r.async_modules ++
        moduleEvents Event.postModuleSync r.modules ++ [Event.postCallback]
      match routeResult with
      | some (h, params) =>
          let ctx : RouteContext := ⟨peer, path, params, cert⟩
          let hdr := headerFold r.headers ctx
          let ftr := footerFold r.footers ctx
          let content := h ctx
          let content2 := r.post_route_callback hookCtx content
          (wireResponse r hdr.1 ftr.1 content2,
            preEv ++ hdr.2 ++ ftr.2 ++ [Event.handler] ++ postEv ++
              [Event.wireWrite])
      | none =>
          let content := r.error_handler ⟨peer, path, cert⟩
          let content2 := r.post_route_callback hookCtx content
          (wireResponse r "" "" content2,
            preEv ++ [Event.errorHandler] ++ postEv ++ [Event.wireWrite])

/-! ## Helper lemmas -/

/-- The head of a `dropWhile` result never satisfies the dropped predicate. -/
theorem dropWhile_head_false {α : Type} (p : α → Bool) (l : List α) (a : α)
    (h : (l.dropWhile p).head? = some a) : p a = false := by
  have hm := List.head?_dropWhile_not p l
  rw [h] at hm
  exact hm

/-- A path stripped of its trailing slashes never ends in a slash. -/
theorem endsWithSlash_strip (s : String) :
    endsWithSlash (stripTrailingSlashes s) = false := by
  unfold endsWithSlash stripTrailingSlashes
  rw [show (String.mk ((s.data.reverse.dropWhile fun c => c = '/').reverse)).data
      = (s.data.reverse.dropWhile fun c => c = '/').reverse from rfl]
  rw [List.getLast?_reverse]
  cases h : (s.data.reverse.dropWhile fun c => c = '/').head? with
  | none => rfl
  | some c => simpa using dropWhile_head_false _ _ _ h

/-- Stripping trailing slashes from a path that does not end in a slash is
the identity. -/
theorem strip_of_not_slash (s : String) (h : endsWithSlash s = false) :
    stripTrailingSlashes s = s := by
  apply strEq
  show (s.data.reverse.dropWhile fun c => c = '/').reverse = s.data
  cases hrev : s.data.reverse with
  | nil =>
      have hd : s.data = [] := by
        have := congrArg List.reverse hrev
        simpa using this
      rw [hd]
      rfl
  | cons a l =>
      have hl : s.data.getLast? = some a := by
        rw [← List.head?_reverse, hrev]
        rfl
      unfold endsWithSlash at h
      rw [hl] at h
      simp only [] at h
      rw [List.dropWhile_cons_of_neg (by simp [h]), ← hrev,
        List.reverse_reverse]

/-! ## Claim C10: normalize_path_slashes -/

/-- C10: `normalize_path_slashes` maps `"/"` to `"/"`; every other input is
returned with all trailing `'/'` characters removed (so `"/foo///"` and
`"/foo/"` both map to `"/foo"` and `"/foo"` is unchanged); consequently the
function is idempotent. -/
theorem c10_normalize_path_slashes (p q : String) (hp : p ≠ "/") :
    normalize_path_slashes "/" = "/" ∧
    normalize_path_slashes p = stripTrailingSlashes p ∧
    normalize_path_slashes "/foo///" = "/foo" ∧
    normalize_path_slashes "/foo/" = "/foo" ∧
    normalize_path_slashes "/foo" = "/foo" ∧
    normalize_path_slashes (normalize_path_slashes q) =
      normalize_path_slashes q := by
  refine ⟨by decide, ?_, by decide, by decide, by decide, ?_⟩
  · unfold normalize_path_slashes
    rw [if_neg hp]
    by_cases hs : endsWithSlash p = true
    · rw [if_pos hs]
    · rw [if_neg hs]
      exact (strip_of_not_slash p (by simpa using hs)).symm
  · by_cases hq : q = "/"
    · subst hq
      decide
    · have hbranch : normalize_path_slashes q =
          if endsWithSlash q then stripTrailingSlashes q else q := by
        unfold normalize_path_slashes
        rw [if_neg hq]
      by_cases hs : endsWithSlash q = true
      · have hval : normalize_path_slashes q = stripTrailingSlashes q := by
          rw [hbranch, if_pos hs]
        rw [hval]
        have h1 := endsWithSlash_strip q
        have h2 : stripTrailingSlashes q ≠ "/" := by
          intro he
          rw [he] at h1
          exact absurd h1 (by decide)
        unfold normalize_path_slashes
        rw [if_neg h2, if_neg (by simp [h1])]
      · have hval : normalize_path_slashes q = q := by
          rw [hbranch, if_neg hs]
        rw [hval, hbranch, if_neg hs]

/-- C10 witness: the general part of the claim evaluated at `"/foo/"`. -/
theorem c10_witness :
    normalize_path_slashes "/foo/" = stripTrailingSlashes "/foo/" :=
  (c10_normalize_path_slashes "/foo/" "/bar" (by decide)).2.1

/-! ## Claim C2: status framing for body-less statuses -/

/-- C2: for every response whose status is one of 10, 11, 30, 31, 40-44,
50-53, 59, 60-62, the bytes on the wire are exactly the status, a space,
the META string and CRLF, with no body bytes following. -/
theorem c2_status_framing (r : Router) (hd ft m : String)
    (mi cs : Option String) (ls : Option (List String)) (s : Int)
    (h : s ∈ ([10, 11, 30, 31, 40, 41, 42, 43, 44, 50, 51, 52, 53, 59, 60,
      61, 62] : List Int)) :
    wireResponse r hd ft ⟨s, m, mi, cs, ls⟩ =
      toString s ++ " " ++ m ++ "\r\n" := by
  fin_cases h <;>
    (apply strEq; simp [wireResponse, wireHead, wireBody, data_append,
      data_empty])

/-- C2 witness: the framing theorem applied at status 51. -/
theorem c2_witness :
    (51 : Int) ∈ ([10, 11, 30, 31, 40, 41, 42, 43, 44, 50, 51, 52, 53, 59,
      60, 61, 62] : List Int) ∧
    wireResponse Router.default "" "" ⟨51, "nope", none, none, none⟩ =
      toString (51 : Int) ++ " " ++ "nope" ++ "\r\n" :=
  ⟨by decide,
    c2_status_framing Router.default "" "" "nope" none none none 51
      (by decide)⟩

/-! ## Claim C3: internal statuses 21 and 22 -/

/-- C3 (code evaluation): a status-21 response is written with wire status
20 and the caller MIME but with NO space between the status and the MIME,
while a status-22 response does get the space; in both cases the body bytes
follow unmodified and no header or footer composite is interpolated. -/
theorem c3_internal_status_translation (r : Router) (hd ft body mime :
    String) :
    wireResponse r hd ft ⟨21, body, some mime, none, none⟩ =
      "20" ++ mime ++ "\r\n" ++ body ∧
    wireResponse r hd ft ⟨22, body, some mime, none, none⟩ =
      "20" ++ " " ++ mime ++ "\r\n" ++ body := by
  refine ⟨?_, ?_⟩ <;>
    (apply strEq; simp [wireResponse, wireHead, wireBody, data_append,
      show toString (20 : Int) = "20" from rfl])

/-! ## Claim C9: binary success wire bytes -/

/-- C9 (code evaluation): for a handler returning `binary_success` with the
PNG magic bytes and MIME `image/png`, the complete wire response is
`"20image/png\r\n"` - with no space after the status - followed by the four
raw bytes. -/
theorem c9_binary_success_wire :
    (handle (Router.default.mount "/png"
        fun _ => Response.binary_success
          (String.mk [Char.ofNat 0x89, 'P', 'N', 'G']) "image/png")
      (RequestOutcome.ok "/png") none none).1 =
      "20image/png\r\n" ++ String.mk [Char.ofNat 0x89, 'P', 'N', 'G'] := by
  decide

/-! ## Event-trace helper lemmas -/

/-- Appending-fold form of an event loop equals its map form. -/
theorem foldl_append_events (f : Nat → Event) :
    ∀ (l : List Nat) (init : List Event),
      l.foldl (fun a i => a ++ [f i]) init = init ++ l.map f
  | [], init => by simp
  | x :: rest, init => by
      simp [foldl_append_events f rest (init ++ [f x])]

/-- Module hook events are one per attached module, in insertion order. -/
theorem moduleEvents_eq (f : Nat → Event) (n : Nat) :
    moduleEvents f n = (List.range n).map f := by
  simp [moduleEvents, foldl_append_events]

/-- The events of the header loop, one per header function in order. -/
theorem headerFoldAux_events (ctx : RouteContext) :
    ∀ (hs : List (RouteContext → String)) (i : Nat),
      (headerFoldAux ctx i hs).2 =
        (List.range hs.length).map fun j => Event.headerFn (i + j)
  | [], i => by simp [headerFoldAux]
  | f :: rest, i => by
      have ih := headerFoldAux_events ctx rest (i + 1)
      have harith : (fun j => Event.headerFn (i + 1 + j)) =
          fun j => Event.headerFn (i + (j + 1)) := by
        funext j
        congr 1
        omega
      simp [headerFoldAux, ih, harith, List.range_succ_eq_map, List.map_map,
        Function.comp_def, Nat.succ_eq_add_one]

/-- The events of the footer loop, one per footer function in order. -/
theorem footerFoldAux_events (ctx : RouteContext) (n : Nat) :
    ∀ (fs : List (RouteContext → String)) (i : Nat),
      (footerFoldAux ctx n i fs).2 =
        (List.range fs.length).map fun j => Event.footerFn (i + j)
  | [], i => by simp [footerFoldAux]
  | f :: rest, i => by
      have ih := footerFoldAux_events ctx n rest (i + 1)
      have harith : (fun j => Event.footerFn (i + 1 + j)) =
          fun j => Event.footerFn (i + (j + 1)) := by
        funext j
        congr 1
        omega
      simp [footerFoldAux, ih, harith, List.range_succ_eq_map, List.map_map,
        Function.comp_def, Nat.succ_eq_add_one]

/-- Events of the composite header fold. -/
theorem headerFold_events (hs : List (RouteContext → String))
    (ctx : RouteContext) :
    (headerFold hs ctx).2 = (List.range hs.length).map Event.headerFn := by
  simp [headerFold, headerFoldAux_events]

/-- Events of the composite footer fold. -/
theorem footerFold_events (fs : List (RouteContext → String))
    (ctx : RouteContext) :
    (footerFold fs ctx).2 = (List.range fs.length).map Event.footerFn := by
  simp [footerFold, footerFoldAux_events]

/-! ## Claim C4: hook ordering -/

/-- The hook order asserted by the ordering claim of the spec, following its
words (pre-route callback first, then the modules, and the handler before
the footer functions), stated for comparison with the trace the code
produces. -/
def claimedHookOrder (nAsync nSync nHeaders nFooters : Nat) : List Event :=
  [Event.preCallback] ++ (List.range nAsync).map Event.preModuleAsync ++
    (List.range nSync).map Event.preModuleSync ++
    (List.range nHeaders).map Event.headerFn ++ [Event.handler] ++
    (List.range nFooters).map Event.footerFn ++
    (List.range nAsync).map Event.postModuleAsync ++
    (List.range nSync).map Event.postModuleSync ++
    [Event.postCallback, Event.wireWrite]

/-- C4 counterexample: with one sync module, one header and one footer, the
trace produced by `handle` is not the claimed order (the pre-route callback
runs after the module pre-hooks, and the footer functions run before the
handler). -/
theorem c4_counterexample :
    (handle (({ Router.default with
        modules := 1
        headers := [fun _ => "H"]
        footers := [fun _ => "F"] } : Router).mount "/"
        fun _ => Response.success "B")
      (RequestOutcome.ok "/") none none).2 ≠ claimedHookOrder 0 1 1 1 := by
  decide

/-- C4 amended: on a matched route the hooks run in the order async-module
pre-hooks, sync-module pre-hooks (each in insertion order), pre-route
callback, header functions, footer functions, handler, async-module
post-hooks, sync-module post-hooks, post-route callback, wire write. -/
theorem c4_hook_order (r : Router) (path : String) (peer cert : Option String)
    (h : (rtAt r.routes (lookupPath r path)).isSome = true) :
    (handle r (RequestOutcome.ok path) peer cert).2 =
      (List.range r.async_modules).map Event.preModuleAsync ++
      (List.range r.modules).map Event.preModuleSync ++ [Event.preCallback] ++
      (List.range r.headers.length).map Event.headerFn ++
      (List.range r.footers.length).map Event.footerFn ++ [Event.handler] ++
      (List.range r.async_modules).map Event.postModuleAsync ++
      (List.range r.modules).map Event.postModuleSync ++
      [Event.postCallback, Event.wireWrite] := by
  obtain ⟨⟨hf, params⟩, hq⟩ := Option.isSome_iff_exists.mp h
  simp [handle, hq, moduleEvents_eq, headerFold_events, footerFold_events]

/-- C4 witness: the amended ordering evaluated on a default router with one
mounted route. -/
theorem c4_witness :
    (handle (Router.default.mount "/" fun _ => Response.success "B")
      (RequestOutcome.ok "/") none none).2 =
      [Event.preCallback, Event.handler, Event.postCallback,
        Event.wireWrite] := by
  rw [c4_hook_order _ "/" none none (by decide)]
  decide

/-! ## Claim C5: malformed requests -/

/-- C5 counterexample: the bad-request reply contains no carriage return and
no line feed at all, so it is not of the form `"59 <detail>\r\n"`. -/
theorem c5_counterexample :
    Char.ofNat 13 ∉ (handle Router.default
      (RequestOutcome.badUtf8 "invalid utf-8 sequence of 1 bytes from index 0")
      none none).1.data ∧
    Char.ofNat 10 ∉ (handle Router.default
      (RequestOutcome.badUtf8 "invalid utf-8 sequence of 1 bytes from index 0")
      none none).1.data := by
  decide

/-- C5 amended: a request whose bytes are not UTF-8, or which does not parse
as a URL, is answered by the immediate reply `"59 The server (Windmark)
received a bad request: <detail>"` with no terminating CRLF, and neither a
route handler nor the user error handler is invoked (the hook trace is
empty). -/
theorem c5_malformed_request (r : Router) (e : String)
    (peer cert : Option String) :
    handle r (RequestOutcome.badUtf8 e) peer cert = (badRequestReply e, []) ∧
    handle r (RequestOutcome.badUrl e) peer cert = (badRequestReply e, []) ∧
    badRequestReply e =
      "59 The server (Windmark) received a bad request: " ++ e :=
  ⟨rfl, rfl, rfl⟩

/-! ## Claim C6: route miss and the error handler -/

/-- C6: on a route miss the user error handler is invoked with the error
context carrying the peer address, the URL and the peer certificate, and
its response is framed normally with empty header and footer composites (no
partial functions are applied); the default error handler produces exactly
the 51 reply. -/
theorem c6_route_miss (r : Router) (path : String) (peer cert : Option String)
    (h : rtAt r.routes (lookupPath r path) = none) :
    (handle r (RequestOutcome.ok path) peer cert).1 =
      wireResponse r "" ""
        (r.post_route_callback ⟨peer, path, none, cert⟩
          (r.error_handler ⟨peer, path, cert⟩)) ∧
    (handle Router.default (RequestOutcome.ok "/missing") none none).1 =
      "51 This capsule has not implemented an error handler...\r\n" := by
  refine ⟨?_, by decide⟩
  simp [handle, h]

/-- C6 witness: the route-miss theorem evaluated on the default router. -/
theorem c6_witness :
    (handle Router.default (RequestOutcome.ok "/missing") none none).1 =
      wireResponse Router.default "" ""
        (Router.default.post_route_callback ⟨none, "/missing", none, none⟩
          (Router.default.error_handler ⟨none, "/missing", none⟩)) :=
  (c6_route_miss Router.default "/missing" none none rfl).1

/-! ## Claim C7: route priority -/

/-- C7 (spec-modelled matcher): with both `/users/list` and `/users/:id`
registered, `/users/list` resolves to the literal route's handler with no
parameters, and `/users/42` resolves to the parameter route's handler with
`id` bound to `"42"`; a handler reading `params["id"]` sees `"42"` in the
wire output. -/
theorem c7_route_priority (h1 h2 : Handler) :
    rtAt ((Router.default.mount "/users/list" h1).mount "/users/:id"
      h2).routes "/users/list" = some (h1, []) ∧
    rtAt ((Router.default.mount "/users/list" h1).mount "/users/:id"
      h2).routes "/users/42" = some (h2, [("id", "42")]) ∧
    (handle ((Router.default.mount "/users/list"
        fun _ => Response.success "list page").mount "/users/:id"
        fun c => Response.success ((c.params.lookup "id").getD "?"))
      (RequestOutcome.ok "/users/42") none none).1 =
      "20 text/gemini; charset=utf-8; lang=en\r\n42\n" :=
  ⟨rfl, rfl, by decide⟩

/-! ## Claim C8: fix-path lookups -/

/-- C8 (spec-modelled relaxed lookup): with `fix_path` set and route
`/About`, a request to `/about/` resolves to the `/About` handler; when the
relaxed lookup misses, the raw path is used unchanged; with the flag unset
the raw path is used; and an empty path is normalized to `/` by the lookup
itself. -/
theorem c8_fix_path (h : Handler) :
    (lookupPath ({ Router.default with fix_path := true }.mount "/About" h)
        "/about/" = "/About" ∧
      rtAt ({ Router.default with fix_path := true }.mount "/About" h).routes
        (lookupPath ({ Router.default with fix_path := true }.mount "/About"
          h) "/about/") = some (h, [])) ∧
    (∀ (r : Router) (path : String), r.fix_path = true →
      fixPath r.patterns (if path = "" then "/" else path) = none →
      lookupPath r path = path) ∧
    (∀ (r : Router) (path : String), r.fix_path = false →
      lookupPath r path = path) ∧
    (∀ (t : RTree Handler), rtAt t "" = rtAt t "/") := by
  refine ⟨⟨rfl, rfl⟩, ?_, ?_, fun t => rfl⟩
  · intro r path hf hm
    simp [lookupPath, hf, hm]
  · intro r path hf
    simp [lookupPath, hf]

/-- C8 witness: the flag-unset part of the fix-path theorem evaluated on the
default router. -/
theorem c8_witness :
    lookupPath { Router.default with fix_path := false } "/x" = "/x" :=
  ((c8_fix_path fun _ => Response.success "").2.2.1)
    { Router.default with fix_path := false } "/x" rfl

/-! ## Claim C1: header/footer composition and scenario S1 -/

/-- C1 counterexample: with no headers, no footers and no custom MIME, the
complete response for a handler returning `success "Hello!"` is NOT the
claimed `"20 text/gemini; charset=utf-8; lang=en\r\nHello!"` (a trailing
newline follows the body). -/
theorem c1_counterexample :
    (handle (Router.default.mount "/" fun _ => Response.success "Hello!")
      (RequestOutcome.ok "/") none none).1 ≠
      "20 text/gemini; charset=utf-8; lang=en\r\nHello!" := by
  decide

/-- C1 amended: with headers `[H1, H2]` and footers `[F1, F2]` the 20-status
body is `"H1\nH2\n" ++ B ++ "\n" ++ "F1\nF2"`; with no headers the leading
segment is absent; with no footers the body is `B` followed by a single
trailing newline (the newline separating body from footers is written
unconditionally); the S1 response bytes are therefore
`"20 text/gemini; charset=utf-8; lang=en\r\nHello!\n"`. -/
theorem c1_header_footer_composition (ctx : RouteContext)
    (h1 h2 f1 f2 b : String) :
    wireBody (headerFold [fun _ => h1, fun _ => h2] ctx).1
        (footerFold [fun _ => f1, fun _ => f2] ctx).1 (Response.success b) =
      h1 ++ "\n" ++ h2 ++ "\n" ++ b ++ "\n" ++ f1 ++ "\n" ++ f2 ∧
    wireBody (headerFold [] ctx).1
        (footerFold [fun _ => f1, fun _ => f2] ctx).1 (Response.success b) =
      b ++ "\n" ++ f1 ++ "\n" ++ f2 ∧
    wireBody (headerFold [fun _ => h1, fun _ => h2] ctx).1
        (footerFold [] ctx).1 (Response.success b) =
      h1 ++ "\n" ++ h2 ++ "\n" ++ b ++ "\n" ∧
    wireResponse Router.default (headerFold [fun _ => h1, fun _ => h2] ctx).1
        (footerFold [fun _ => f1, fun _ => f2] ctx).1 (Response.success b) =
      "20 text/gemini; charset=utf-8; lang=en\r\n" ++
        (h1 ++ "\n" ++ h2 ++ "\n" ++ b ++ "\n" ++ f1 ++ "\n" ++ f2) ∧
    (handle (Router.default.mount "/" fun _ => Response.success "Hello!")
      (RequestOutcome.ok "/") none none).1 =
      "20 text/gemini; charset=utf-8; lang=en\r\nHello!\n" := by
  have hA : wireBody (headerFold [fun _ => h1, fun _ => h2] ctx).1
      (footerFold [fun _ => f1, fun _ => f2] ctx).1 (Response.success b) =
      h1 ++ "\n" ++ h2 ++ "\n" ++ b ++ "\n" ++ f1 ++ "\n" ++ f2 := by
    apply strEq
    simp [wireBody, headerFold, headerFoldAux, footerFold, footerFoldAux,
      Response.success, data_append, data_empty]
  refine ⟨hA, ?_, ?_, ?_, by decide⟩
  · apply strEq
    simp [wireBody, headerFold, headerFoldAux, footerFold, footerFoldAux,
      Response.success, data_append, data_empty]
  · apply strEq
    simp [wireBody, headerFold, headerFoldAux, footerFold, footerFoldAux,
      Response.success, data_append, data_empty]
  · simp only [wireResponse]
    rw [show wireHead Router.default (Response.success b) =
      "20 text/gemini; charset=utf-8; lang=en\r\n" from rfl]
    exact congrArg
      (fun x => "20 text/gemini; charset=utf-8; lang=en\r\n" ++ x) hA

end Windmark
